import Mathlib

/-!
Verification development for the streaming transcript-to-sign-queue pipeline
(`src/speech_to_sign/`): shallow embeddings of the queue builders
(`glossify_transcript.map_gloss_to_queue`, `make_sign_queue.to_queue`), the
matchers (`greedy_phrase_first`, `words_on_remaining`), the fallback glossifier
(`sent_to_gloss_basic`, `basic_lemma`), the segmenter commit step
(`finalize_transcript.CleanerState.commit`) and the asset streamer
(`stream_queue_assets.process_line`), with theorems settling the spec claims.

Strings are modelled as Lean strings manipulated through their character
lists, rational numbers stand in for Python floats (exact on the dyadic
rates exercised here), and `int(round(x))` is round-half-to-even.
-/

namespace SpeechToSign

/-! ## Python-level primitives -/

/-- Python 3 `int(round(a / b))` for an exact fraction `a / b` with `b > 0`:
round half to even.  `f` is the floor of the quotient and `r = a - f * b`
its remainder, so the fraction part compares to one half as `2r` to `b`. -/
def pyRoundDiv (a b : ℤ) : ℤ :=
  let f := Int.fdiv a b
  let r := a - f * b
  if 2 * r < b then f
  else if b < 2 * r then f + 1
  else if f % 2 = 0 then f else f + 1

/-- Characters Python `str.strip()` / `str.split()` treat as whitespace. -/
def pyIsSpace (c : Char) : Bool :=
  c = ' ' || c = Char.ofNat 9 || c = Char.ofNat 10 || c = Char.ofNat 13 ||
    c = Char.ofNat 11 || c = Char.ofNat 12

/-- Python `str.strip()`. -/
def pyStrip (s : String) : String :=
  String.mk (((s.data.dropWhile pyIsSpace).reverse.dropWhile pyIsSpace).reverse)

/-- Python `str.split()` with no argument: split on whitespace runs,
dropping empty pieces. -/
def pySplitWs (s : String) : List String :=
  ((s.data.splitOnP pyIsSpace).map String.mk).filter (fun w => w ≠ "")

/-- Python truthiness of an optional string (`None` and `""` are falsy). -/
def pyTruthy : Option String → Bool
  | none => false
  | some s => s ≠ ""

/-- Python `sep.join(ws)`. -/
def joinWith (sep : String) : List String → String
  | [] => ""
  | [w] => w
  | w :: ws => w ++ sep ++ joinWith sep ws

/-- Python `str.lower()` (ASCII range, which is all the pipeline feeds it). -/
def strLower (s : String) : String := String.mk (s.data.map Char.toLower)

/-- Python `str.upper()` (ASCII range). -/
def strUpper (s : String) : String := String.mk (s.data.map Char.toUpper)

/-- Python `str.endswith(suf)`. -/
def strEndsWith (s suf : String) : Bool := suf.data.isSuffixOf s.data

/-- Python `s[:-n]` for `n ≤ len(s)` (drop the last `n` characters). -/
def strDropRight (s : String) (n : ℕ) : String :=
  String.mk (s.data.take (s.data.length - n))

/-! ## `glossify_transcript.py`: data and `map_gloss_to_queue` -/

/-- A lexicon entry as read by `glossify_transcript.py`; every field is
accessed with `dict.get`, so each may be absent. -/
structure GEntry where
  label : Option String
  asset : Option String
  dur_ms : Option ℤ
  deriving DecidableEq

/-- One item of an emitted sign queue (`type` is `"clip"` or `"meta"`). -/
structure QItem where
  label : String
  type : String
  asset : Option String
  dur_ms : ℤ
  deriving DecidableEq

/-- The lookup cascade of `map_gloss_to_queue`: `entry = lex.get(g.lower())`,
and if that is falsy, `lex.get(g) or lex.get(g.lower())`. -/
def glossLookup (lex : String → Option GEntry) (g : String) : Option GEntry :=
  match lex (strLower g) with
  | some e => some e
  | none =>
    match lex g with
    | some e => some e
    | none => lex (strLower g)

/-- The clamped divisor `max(rate, 0.01)` of `map_gloss_to_queue`, written as
Python's binary `max` (second argument wins only when strictly larger). -/
def maxRate (rate : ℚ) : ℚ := if rate < mkRat 1 100 then mkRat 1 100 else rate

/-- `int(round(entry.get("dur_ms", 1000) / max(rate, 0.01)))`.  The exact
quotient `d / r` of an integer by a positive rational `r` is the integer
fraction `(d * r.den) / r.num`, which `pyRoundDiv` rounds half to even. -/
def mgqDur (e : GEntry) (rate : ℚ) : ℤ :=
  pyRoundDiv (e.dur_ms.getD 1000 * ((maxRate rate).den : ℤ)) (maxRate rate).num

/-- Loop body of `map_gloss_to_queue`: `i` is the enumeration index, `n` the
total gloss length.  A resolved token appends a clip and then, when
`tween_ms` is truthy and `i < n - 1`, a `_TWEEN` meta item; unresolved
tokens are skipped silently. -/
def mgqGo (lex : String → Option GEntry) (tween_ms : ℤ) (rate : ℚ) (n : ℕ) :
    ℕ → List String → List QItem
  | _, [] => []
  | i, g :: rest =>
    match glossLookup lex g with
    | some e =>
      ⟨(e.label).getD g, "clip", e.asset, mgqDur e rate⟩ ::
        ((if tween_ms ≠ 0 ∧ i < n - 1 then
            [⟨"_TWEEN", "meta", none, tween_ms⟩] else []) ++
          mgqGo lex tween_ms rate n (i + 1) rest)
    | none => mgqGo lex tween_ms rate n (i + 1) rest

/-- `glossify_transcript.map_gloss_to_queue`. -/
def map_gloss_to_queue (gloss : List String) (lex : String → Option GEntry)
    (tween_ms : ℤ) (rate : ℚ) : List QItem :=
  mgqGo lex tween_ms rate gloss.length 0 gloss

/-! ## `glossify_transcript.py`: the glossifiers -/

/-- Replacement done by `APOSTROPHE_RE`: the right single quote (U+2019) and
the backquote (U+0060) both become a plain apostrophe (U+0027). -/
def aposSub (c : Char) : Char :=
  if c = Char.ofNat 8217 || c = Char.ofNat 96 then Char.ofNat 39 else c

/-- `normalize_token`: lower-case, then normalize apostrophe characters. -/
def normalize_token (tok : String) : String :=
  String.mk ((tok.data.map Char.toLower).map aposSub)

/-- The direct substitution table `CUSTOM_MAP` (spoken form to gloss key). -/
def CUSTOM_MAP : List (String × String) :=
  [("i'm", "I"), ("im", "I"), ("i", "I"), ("me", "I"), ("my", "MY"),
   ("mine", "MY"), ("you", "YOU"), ("your", "YOUR"), ("yours", "YOUR"),
   ("he", "HE"), ("she", "SHE"), ("it", "IT"), ("we", "WE"),
   ("they", "THEY"), ("am", "BE"), ("is", "BE"), ("are", "BE"),
   ("was", "BE"), ("were", "BE"), ("hello", "HELLO"), ("hi", "HI"),
   ("how", "HOW"), ("good", "GOOD"), ("morning", "MORNING"),
   ("afternoon", "AFTERNOON"), ("evening", "EVENING"), ("do", "DO"),
   ("doing", "DO"), ("today", "TODAY"), ("what", "WHAT"), ("why", "WHY"),
   ("where", "WHERE"), ("when", "WHEN"), ("which", "WHICH"),
   ("please", "PLEASE"), ("thanks", "THANK-YOU"), ("thank", "THANK-YOU"),
   ("yes", "YES"), ("no", "NO")]

/-- `CUSTOM_MAP` lookup (`t in CUSTOM_MAP` / `CUSTOM_MAP[t]`). -/
def customMap (t : String) : Option String :=
  (CUSTOM_MAP.find? (fun p => p.1 == t)).map Prod.snd

/-- A character matched by `WORD_RE`'s class `[A-Za-z0-9']`. -/
def isWordChar (c : Char) : Bool := c.isAlpha || c.isDigit || c = Char.ofNat 39

/-- Worker for `WORD_RE.findall`: `cur` holds the current word reversed. -/
def findWordsAux : List Char → List Char → List String
  | [], cur => if cur = [] then [] else [String.mk cur.reverse]
  | c :: rest, cur =>
    if isWordChar c then findWordsAux rest (c :: cur)
    else if cur = [] then findWordsAux rest []
    else String.mk cur.reverse :: findWordsAux rest []

/-- `WORD_RE.findall(text)`: maximal runs of `[A-Za-z0-9']`. -/
def wordFindall (s : String) : List String := findWordsAux s.data []

/-- Possessive strip of `basic_lemma`: `if tok.endswith("'s"): tok = tok[:-2]`. -/
def stripPoss (tok : String) : String :=
  if strEndsWith tok "'s" then strDropRight tok 2 else tok

/-- One guard of `basic_lemma`'s loop: `tok.endswith(suf) and
len(tok) > len(suf) + 1`. -/
def qualifies (t suf : String) : Bool :=
  strEndsWith t suf && decide (suf.data.length + 1 < t.data.length)

/-- The suffix loop of `basic_lemma`, unrolled in source order
(`"ing", "ed", "es", "s"`); the first qualifying suffix is removed. -/
def suffixStrip (t : String) : String :=
  if qualifies t "ing" then strDropRight t 3
  else if qualifies t "ed" then strDropRight t 2
  else if qualifies t "es" then strDropRight t 2
  else if qualifies t "s" then strDropRight t 1
  else t

/-- `glossify_transcript.basic_lemma`. -/
def basic_lemma (tok : String) : String := suffixStrip (stripPoss tok)

/-- Modelled from the spec: the claim's reading of the fallback lemmatizer —
after stripping a possessive `'s`, remove the longest suffix among
`ing, ed, es, s` that matches and leaves a stem of at least two characters
(token strictly longer than suffix length plus one); otherwise return the
token unchanged.  Stated from the spec's words for comparison with
`basic_lemma`. -/
def basicLemmaSpec (tok : String) : String :=
  let t := stripPoss tok
  match (["ing", "ed", "es", "s"].filter (fun suf => qualifies t suf)).argmax
      String.length with
  | some suf => strDropRight t suf.data.length
  | none => t

/-- The `DROP` stop-gloss set of `sent_to_gloss_basic`. -/
def DROP_BASIC : List String :=
  ["THE", "A", "AN", "OF", "TO", "IN", "ON", "AT", "FOR", "AND", "OR",
   "BUT", "WITH", "BE"]

/-- One step of the adjacent-duplicate compression loop
(`if not dedup or dedup[-1] != g: dedup.append(g)`). -/
def pushDedup (acc : List String) (g : String) : List String :=
  if acc.getLast? = some g then acc else acc ++ [g]

/-- The adjacent-duplicate compression loop shared by both glossifiers. -/
def dedupAdjacent (gs : List String) : List String := gs.foldl pushDedup []

/-- `glossify_transcript.sent_to_gloss_basic`: tokenize, substitute through
`CUSTOM_MAP`, otherwise lemmatize and upper-case, drop stop glosses,
compress adjacent duplicates. -/
def sent_to_gloss_basic (text : String) : List String :=
  let toks := (wordFindall text).map normalize_token
  let glosses := toks.map (fun t =>
    match customMap t with
    | some g => g
    | none => strUpper (basic_lemma t))
  dedupAdjacent (glosses.filter (fun g => !(DROP_BASIC.contains g)))

/-- A spaCy token as consumed by `sent_to_gloss_spacy`: its text, its
part-of-speech tag `pos_` (empty when the tagger is absent), its lemma
`lemma_` (empty when unavailable) and the `is_space` flag.  The `nlp`
call itself is external; the function below is the repository's own loop
over the resulting tokens. -/
structure SpacyTok where
  text : String
  pos_ : String
  lemma_ : String
  is_space : Bool
  deriving DecidableEq

/-- The content-word tag set `KEEP_POS`. -/
def KEEP_POS : List String :=
  ["NOUN", "PROPN", "VERB", "AUX", "ADJ", "ADV", "INTJ", "PRON", "NUM"]

/-- The token loop of `sent_to_gloss_spacy`, before duplicate compression. -/
def spacyGlosses : List SpacyTok → List String
  | [] => []
  | tok :: rest =>
    if tok.is_space then spacyGlosses rest
    else
      let s := normalize_token tok.text
      match customMap s with
      | some g => g :: spacyGlosses rest
      | none =>
        let pos_ok := if tok.pos_ ≠ "" then KEEP_POS.contains tok.pos_ else true
        if !pos_ok then spacyGlosses rest
        else
          let lem := if tok.lemma_ ≠ "" then strLower tok.lemma_ else s
          let lem2 := (customMap lem).getD (strUpper lem)
          strUpper lem2 :: spacyGlosses rest

/-- `glossify_transcript.sent_to_gloss_spacy` as a function of the tagged
token sequence. -/
def sent_to_gloss_spacy (doc : List SpacyTok) : List String :=
  dedupAdjacent (spacyGlosses doc)

/-! ## `make_sign_queue.py`: matcher and queue assembly -/

/-- A lexicon entry of `make_sign_queue.py`: `label` and `asset` are indexed
directly (required), `dur_ms` through `.get` with default 800. -/
structure MEntry where
  label : String
  asset : String
  dur_ms : Option ℤ
  deriving DecidableEq

/-- The word-level stop-word set `STOPWORDS`. -/
def STOPWORDS : List String :=
  ["the", "a", "an", "is", "am", "are", "to", "of", "in", "on", "for",
   "and", "or", "but", "be", "was", "were", "do", "does", "did"]

/-- The `DROP_STOPWORDS` knob (module constant `True`). -/
def DROP_STOPWORDS : Bool := true

/-- `make_sign_queue.scale_ms` with the module constant `SPEED_FACTOR` made
an explicit parameter: non-positive factors leave the duration unscaled,
otherwise `max(1, int(round(ms / factor)))`. -/
def scale_ms (speed : ℚ) (ms : ℤ) : ℤ :=
  if speed ≤ 0 then ms
  else max 1 (pyRoundDiv (ms * (speed.den : ℤ)) speed.num)

/-- `make_sign_queue.make_clip`. -/
def make_clip (speed : ℚ) (e : MEntry) : QItem :=
  ⟨e.label, "clip", some e.asset, scale_ms speed (e.dur_ms.getD 800)⟩

/-- `make_sign_queue.tween` with the module constant `TWEEN_MS` explicit. -/
def tweenItem (tween_ms : ℤ) : QItem := ⟨"_TWEEN", "meta", none, tween_ms⟩

/-- A match tuple of `make_sign_queue`: `("clip", entry, i, j)` or
`("unknown", tok, i, j)`. -/
inductive SMatch where
  | clip (e : MEntry) (i j : ℕ)
  | unknown (tok : String) (i j : ℕ)
  deriving DecidableEq

/-- The sort key `m[2]` (start index) of a match. -/
def SMatch.start : SMatch → ℕ
  | .clip _ i _ => i
  | .unknown _ i _ => i

/-- Association-list lookup standing in for the Python dict lookups on the
phrase and word tables. -/
def lookupMap (m : List (String × MEntry)) (k : String) : Option MEntry :=
  (m.find? (fun p => p.1 == k)).map Prod.snd

/-- The Python slice `used[i:k]`. -/
def pySliceList (l : List Bool) (a b : ℕ) : List Bool := (l.take b).drop a

/-- The guard `any(used[i:k] for k in range(i, j))` of `greedy_phrase_first`,
exactly as written: each generator element is the slice `used[i:k]` — a
list, truthy whenever non-empty — so the guard asks whether some slice is
non-empty, not whether some index is consumed. -/
def anyConsumedSlices (used : List Bool) (i j : ℕ) : Bool :=
  (List.range' i (j - i)).any (fun k => !(pySliceList used i k).isEmpty)

/-- Candidate window lengths `range(min(6, n), 1, -1)`. -/
def phraseLens (n : ℕ) : List ℕ := (List.range' 2 (min 6 n - 1)).reverse

/-- The inner `for L in lens` loop of `greedy_phrase_first` at position `i`:
skip a window that overruns the tokens or whose guard fires, otherwise
look the space-joined window up in the phrase table; `break` on the first
hit, returning the entry and the post-match position `j`. -/
def gpfTryLens (tokens : List String) (phrases : List (String × MEntry))
    (used : List Bool) (i : ℕ) : List ℕ → Option (MEntry × ℕ)
  | [] => none
  | L :: rest =>
    let j := i + L
    if tokens.length < j then gpfTryLens tokens phrases used i rest
    else if anyConsumedSlices used i j then gpfTryLens tokens phrases used i rest
    else
      match lookupMap phrases (joinWith " " ((tokens.take j).drop i)) with
      | some e => some (e, j)
      | none => gpfTryLens tokens phrases used i rest

/-- `used[k] = True for k in range(i, j)`. -/
def markUsed (used : List Bool) (i j : ℕ) : List Bool :=
  used.enum.map (fun p => if i ≤ p.1 ∧ p.1 < j then true else p.2)

/-- The `while i < n` loop of `greedy_phrase_first`.  The position strictly
increases every iteration, so `n + 1` units of fuel always outlast the
loop; the fuel never runs out before the `i < n` test fails. -/
def gpfLoop (tokens : List String) (phrases : List (String × MEntry)) :
    ℕ → ℕ → List Bool → List SMatch × List Bool
  | 0, _, used => ([], used)
  | fuel + 1, i, used =>
    if tokens.length ≤ i then ([], used)
    else if used.getD i false then gpfLoop tokens phrases fuel (i + 1) used
    else
      match gpfTryLens tokens phrases used i (phraseLens tokens.length) with
      | some (e, j) =>
        let used2 := markUsed used i j
        let res := gpfLoop tokens phrases fuel j used2
        (SMatch.clip e i j :: res.1, res.2)
      | none => gpfLoop tokens phrases fuel (i + 1) used

/-- `make_sign_queue.greedy_phrase_first`. -/
def greedy_phrase_first (tokens : List String)
    (phrases : List (String × MEntry)) : List SMatch × List Bool :=
  gpfLoop tokens phrases (tokens.length + 1) 0
    (List.replicate tokens.length false)

/-- `make_sign_queue.words_on_remaining`: unconsumed tokens become word
matches, stop words are dropped, everything else becomes `unknown`. -/
def words_on_remaining (tokens : List String) (used : List Bool)
    (words : List (String × MEntry)) : List SMatch :=
  tokens.enum.filterMap (fun p =>
    if used.getD p.1 false then none
    else if DROP_STOPWORDS && STOPWORDS.contains p.2 then none
    else
      match lookupMap words p.2 with
      | some e => some (SMatch.clip e p.1 (p.1 + 1))
      | none => some (SMatch.unknown p.2 p.1 (p.1 + 1)))

/-- Stable insertion of a match after all entries with start index at most
its own, used to model Python's stable `sorted(matches, key=m[2])`. -/
def insertAfterLe (m : SMatch) : List SMatch → List SMatch
  | [] => [m]
  | x :: xs => if x.start ≤ m.start then x :: insertAfterLe m xs else m :: x :: xs

/-- `sorted(matches, key=lambda m: m[2])` (stable). -/
def sortByStart (ms : List SMatch) : List SMatch :=
  ms.foldl (fun acc m => insertAfterLe m acc) []

/-- The `for idx, m in enumerate(matches)` loop of `to_queue`: a clip match
emits its clip, an unknown match emits the fingerspell clip when the
fallback entry exists and otherwise `continue`s (also skipping the tween
append); after each emission except at `idx = n - 1` a tween follows. -/
def tqGo (speed : ℚ) (tween_ms : ℤ) (fing : Option MEntry) (n : ℕ) :
    ℕ → List SMatch → List QItem × List String
  | _, [] => ([], [])
  | idx, m :: rest =>
    let res := tqGo speed tween_ms fing n (idx + 1) rest
    match m with
    | .clip e _ _ =>
      let tw := if idx ≠ n - 1 then [tweenItem tween_ms] else []
      (make_clip speed e :: (tw ++ res.1), e.label :: res.2)
    | .unknown tok _ _ =>
      match fing with
      | some fe =>
        let tw := if idx ≠ n - 1 then [tweenItem tween_ms] else []
        (make_clip speed fe :: (tw ++ res.1),
          (fe.label ++ "(" ++ tok ++ ")") :: res.2)
      | none => res

/-- `make_sign_queue.to_queue` with the module constants `SPEED_FACTOR` and
`TWEEN_MS` made explicit parameters; returns `(queue, gloss)`. -/
def to_queue (speed : ℚ) (tween_ms : ℤ) (matchList : List SMatch)
    (fing : Option MEntry) : List QItem × List String :=
  let ms := sortByStart matchList
  tqGo speed tween_ms fing ms.length 0 ms

/-! ## `finalize_transcript.py`: cleaning, finalizing and committing -/

/-- Worker for `INLINE_TAG_RE.sub("", s)` where the pattern is an opening
bracket, one or more non-`]` characters, then `]`.  `pend` (reversed)
holds the characters read since an opening bracket still awaiting its
closer; an unmatched opener is emitted literally, and `[]` with nothing
between matches nothing. -/
def stripTagsAux : List Char → Option (List Char) → List Char
  | [], none => []
  | [], some pend => '[' :: pend.reverse
  | c :: rest, none =>
    if c = '[' then stripTagsAux rest (some [])
    else c :: stripTagsAux rest none
  | c :: rest, some pend =>
    if c = ']' then
      if pend = [] then '[' :: ']' :: stripTagsAux rest none
      else stripTagsAux rest none
    else stripTagsAux rest (some (c :: pend))

/-- `finalize_transcript.clean_text`: strip inline bracket tags, then
collapse whitespace (`" ".join(s.strip().split())`). -/
def clean_text (s : String) : String :=
  joinWith " " (pySplitWs (String.mk (stripTagsAux s.data none)))

/-- The terminal punctuation class of `END_PUNCT_RE` (`.`, `!`, `?` and the
horizontal ellipsis U+2026). -/
def END_PUNCT : List Char := ['.', '!', '?', Char.ofNat 8230]

/-- `END_PUNCT_RE.search(s)`: the string ends in terminal punctuation. -/
def endsPunct (s : String) : Bool :=
  match s.data.getLast? with
  | some c => END_PUNCT.contains c
  | none => false

/-- The `FORCE_PERIOD` policy constant. -/
def FORCE_PERIOD : Bool := true

/-- The `MIN_CHARS` threshold constant. -/
def MIN_CHARS : ℕ := 8

/-- `finalize_transcript.finalize_text`: capitalize a leading alphabetic
character and force terminal punctuation. -/
def finalize_text (s : String) : String :=
  if s = "" then ""
  else
    let s2 := match s.data with
      | [] => s
      | c :: cs => if c.isAlpha then String.mk (Char.toUpper c :: cs) else s
    if FORCE_PERIOD && !endsPunct s2 then s2 ++ "." else s2

/-- The segmenter state of `finalize_transcript.CleanerState`. -/
structure CleanerState where
  in_burst : Bool
  last_spoken : Option String
  last_emitted : Option String
  deriving DecidableEq

/-- `CleanerState.commit`: clean, discard fragments shorter than
`MIN_CHARS`, finalize, suppress an exact repeat of the last emitted text,
otherwise emit and reset the burst.  Returns the new state and the list
of lines written. -/
def commit (st : CleanerState) (text : String) : CleanerState × List String :=
  if (clean_text text).data.length < MIN_CHARS then (st, [])
  else if finalize_text (clean_text text) = "" then (st, [])
  else if st.last_emitted = some (finalize_text (clean_text text)) then (st, [])
  else ({ in_burst := false, last_spoken := none,
          last_emitted := some (finalize_text (clean_text text)) },
        [finalize_text (clean_text text)])

/-! ## `stream_queue_assets.py`: the queue streamer -/

/-- A queue item as decoded from a sign-queue record (every field via
`dict.get`, so each may be absent). -/
structure SItem where
  type : Option String
  label : Option String
  asset : Option String
  deriving DecidableEq

/-- A decoded sign-queue record (`obj.get("queue", [])`). -/
structure SRecord where
  queue : List SItem
  deriving DecidableEq

/-- The item loop of `stream_queue_assets.process_line`: keep only `clip`
items with a truthy asset, suppress one whose truthy label equals the
last emitted label, otherwise emit the asset and update the label state. -/
def processQueue (last : Option String) : List SItem → List String × Option String
  | [] => ([], last)
  | it :: rest =>
    if it.type ≠ some "clip" then processQueue last rest
    else if (it.asset).getD "" = "" then processQueue last rest
    else if pyTruthy it.label = true ∧ it.label = last then processQueue last rest
    else
      let res := processQueue it.label rest
      ((it.asset).getD "" :: res.1, res.2)

/-- `stream_queue_assets.process_line` with JSON decoding abstracted as a
`decode` parameter (`json.loads` is library code): a blank line or a line
`decode` rejects yields no assets and leaves the label state untouched. -/
def process_line (decode : String → Option SRecord) (line : String)
    (last : Option String) : List String × Option String :=
  let l := pyStrip line
  if l = "" then ([], last)
  else
    match decode l with
    | none => ([], last)
    | some obj => processQueue last obj.queue

/-! ## Concrete fixtures used by the closed theorems -/

/-- A `glossify` lexicon resolving only the key `hello`. -/
def exLexC1 : String → Option GEntry := fun s =>
  if s = "hello" then some ⟨some "HELLO", some "hello.mp4", some 1000⟩ else none

/-- A `glossify` lexicon whose `hello` entry lasts a single millisecond. -/
def exLexC3 : String → Option GEntry := fun s =>
  if s = "hello" then some ⟨some "HELLO", some "hello.mp4", some 1⟩ else none

/-- A `make_sign_queue` word entry for `hello`. -/
def exHelloEntry : MEntry := ⟨"HELLO", "hello.mp4", some 800⟩

/-- A phrase entry for `thank you`. -/
def exThankYouEntry : MEntry := ⟨"THANK-YOU", "thank_you.mp4", some 900⟩

/-- Word entries for `so` and `much`. -/
def exSoEntry : MEntry := ⟨"SO", "so.mp4", some 500⟩

/-- See `exSoEntry`. -/
def exMuchEntry : MEntry := ⟨"MUCH", "much.mp4", some 500⟩

/-- The phrase table of the greedy-matching scenario. -/
def exPhrases : List (String × MEntry) := [("thank you", exThankYouEntry)]

/-- The word table of the greedy-matching scenario. -/
def exWords : List (String × MEntry) := [("so", exSoEntry), ("much", exMuchEntry)]

/-- A sign-queue record whose only clip is labelled `HELLO`. -/
def recHello : SRecord := ⟨[⟨some "clip", some "HELLO", some "hello.mp4"⟩]⟩

/-- A decoder accepting exactly the line `r` as `recHello`. -/
def decodeHello : String → Option SRecord := fun s =>
  if s = "r" then some recHello else none

end SpeechToSign

namespace SpeechToSign

/-! ## Helper lemmas -/

/-- Rounding an integer divided by one returns it unchanged. -/
theorem pyRoundDiv_one (d : ℤ) : pyRoundDiv d 1 = d := by
  norm_num [pyRoundDiv, Int.fdiv_one]

/-- The clamped divisor `max(rate, 0.01)` is positive for every rate. -/
theorem maxRate_pos (rate : ℚ) : 0 < maxRate rate := by
  have hpos : (0 : ℚ) < mkRat 1 100 := by decide
  unfold maxRate
  split_ifs with h
  · exact hpos
  · exact lt_of_lt_of_le hpos (not_lt.mp h)

/-- One step of the duplicate-compression loop preserves the
no-adjacent-duplicates invariant. -/
theorem chain'_pushDedup (acc : List String) (g : String)
    (h : List.Chain' (fun a b => a ≠ b) acc) :
    List.Chain' (fun a b => a ≠ b) (pushDedup acc g) := by
  unfold pushDedup
  split_ifs with hc
  · exact h
  · rw [List.chain'_append]
    refine ⟨h, List.chain'_singleton g, ?_⟩
    intro x hx y hy
    rw [Option.mem_def] at hx hy
    simp only [List.head?_cons, Option.some.injEq] at hy
    subst hy
    exact fun hxg => hc (hxg ▸ hx)

/-- The duplicate-compression fold preserves the invariant. -/
theorem chain'_foldl_pushDedup :
    ∀ (l acc : List String), List.Chain' (fun a b => a ≠ b) acc →
      List.Chain' (fun a b => a ≠ b) (l.foldl pushDedup acc)
  | [], _, h => h
  | g :: rest, acc, h =>
    chain'_foldl_pushDedup rest (pushDedup acc g) (chain'_pushDedup acc g h)

/-- `dedupAdjacent` never produces two identical adjacent elements. -/
theorem chain'_dedupAdjacent (l : List String) :
    List.Chain' (fun a b => a ≠ b) (dedupAdjacent l) :=
  chain'_foldl_pushDedup l [] List.chain'_nil

/-! ## Claim theorems -/

/-- C1: the tween invariant fails in the code.  With gloss
`["hello", "zzz"]` where only `hello` resolves (`N = 1`), `map_gloss_to_queue`
emits one clip followed by a trailing `_TWEEN` meta item — the queue ends
with a meta item and carries `N` (not `N − 1`) metas, because the tween is
appended whenever the gloss index is not last, regardless of whether the
remaining tokens resolve.  `to_queue` behaves the same on a trailing
unresolved match with no fingerspell entry. -/
theorem c1_trailing_tween_code_bug :
    map_gloss_to_queue ["hello", "zzz"] exLexC1 100 1 =
      [⟨"HELLO", "clip", some "hello.mp4", 1000⟩,
       ⟨"_TWEEN", "meta", none, 100⟩] ∧
    ((map_gloss_to_queue ["hello", "zzz"] exLexC1 100 1).getLast?).map QItem.type =
      some "meta" ∧
    (to_queue 1 100 [SMatch.clip exHelloEntry 0 1, SMatch.unknown "zzz" 1 2]
        none).1 =
      [⟨"HELLO", "clip", some "hello.mp4", 800⟩,
       ⟨"_TWEEN", "meta", none, 100⟩] := by decide

/-- C2: greedy phrase matching never fires in the code.  The guard
`any(used[i:k] for k in range(i, j))` tests the truthiness of list slices,
which are non-empty for every `k > i`, so every candidate window is skipped
as "already consumed": on `["thank", "you", "so", "much"]` with
`"thank you"` in the phrase table, `greedy_phrase_first` returns no match
and leaves nothing consumed, and the word pass then reports `thank` and
`you` individually as unknowns — contradicting the claim (and the
function's own docstring). -/
theorem c2_phrase_match_never_fires_code_bug :
    greedy_phrase_first ["thank", "you", "so", "much"] exPhrases =
      ([], [false, false, false, false]) ∧
    words_on_remaining ["thank", "you", "so", "much"]
        [false, false, false, false] exWords =
      [SMatch.unknown "thank" 0 1, SMatch.unknown "you" 1 2,
       SMatch.clip exSoEntry 2 3, SMatch.clip exMuchEntry 3 4] := by decide

/-- C3 counterexample: `map_gloss_to_queue` applies no minimum-1 clamp.
With a lexicon entry of `dur_ms = 1` and rate `2.0`, the emitted clip's
duration is `round(1 / 2) = 0` (round half to even), which is neither the
claimed `max(1, round(dur / rate))` nor a positive integer. -/
theorem c3_counterexample :
    map_gloss_to_queue ["hello"] exLexC3 0 2 =
      [⟨"HELLO", "clip", some "hello.mp4", 0⟩] ∧
    ¬ (1 ≤ mgqDur ⟨some "HELLO", some "hello.mp4", some 1⟩ 2) := by decide

/-- C3 amended: in `make_sign_queue.scale_ms` a positive speed factor yields
`max(1, round(ms / factor))`, which is always at least 1; in
`glossify_transcript.map_gloss_to_queue` the duration is
`round(dur / max(rate, 0.01))` with no minimum clamp, and at rate `1.0` it
leaves the lexicon duration unchanged; `scale_ms` at factor `1.0` returns
durations of at least one millisecond unchanged. -/
theorem c3_amended_duration_scaling :
    (∀ (speed : ℚ) (ms : ℤ), 0 < speed →
        scale_ms speed ms = max 1 (pyRoundDiv (ms * (speed.den : ℤ)) speed.num) ∧
          1 ≤ scale_ms speed ms) ∧
    (∀ e : GEntry, mgqDur e 1 = e.dur_ms.getD 1000) ∧
    (∀ d : ℤ, 1 ≤ d → scale_ms 1 d = d) := by
  refine ⟨?_, ?_, ?_⟩
  · intro speed ms h
    have hns : ¬ speed ≤ 0 := not_le.mpr h
    refine ⟨by simp [scale_ms, hns], ?_⟩
    simp only [scale_ms, hns, if_false]
    exact le_max_left 1 _
  · intro e
    unfold mgqDur
    rw [show maxRate 1 = 1 by decide, show ((1 : ℚ).den : ℤ) = 1 by decide,
      show (1 : ℚ).num = 1 by decide, mul_one, pyRoundDiv_one]
  · intro d hd
    have hns : ¬ (1 : ℚ) ≤ 0 := by norm_num
    simp only [scale_ms, hns, if_false]
    rw [show ((1 : ℚ).den : ℤ) = 1 by decide, show (1 : ℚ).num = 1 by decide,
      mul_one, pyRoundDiv_one]
    exact max_eq_right hd

/-- C3 witness: the amended scaling facts at speed `2.0` and `ms = 801`. -/
theorem c3_amended_duration_scaling_witness :
    scale_ms 2 801 = max 1 (pyRoundDiv (801 * ((2 : ℚ).den : ℤ)) (2 : ℚ).num) ∧
      1 ≤ scale_ms 2 801 ∧ scale_ms 1 801 = 801 :=
  ⟨(c3_amended_duration_scaling.1 2 801 (by norm_num)).1,
   (c3_amended_duration_scaling.1 2 801 (by norm_num)).2,
   c3_amended_duration_scaling.2.2 801 (by norm_num)⟩

/-- C4 counterexample: the claimed fallback glossing of
`"How are you today?"` is wrong for the code — the substitution result
`BE` (from `are`) is subsequently removed by the `DROP` stop-gloss filter,
so the output is not `["HOW", "BE", "YOU", "TODAY"]`. -/
theorem c4_counterexample :
    ¬ (sent_to_gloss_basic "How are you today?" =
        ["HOW", "BE", "YOU", "TODAY"]) := by decide

/-- C4 amended: with the no-tagger fallback, `"Hello there."` glosses to
`["HELLO", "THERE"]` (`THERE` is not in the stop set and is kept), and
`"How are you today?"` glosses to `["HOW", "YOU", "TODAY"]`: `are` is
substituted to `BE` through the table consulted before filtering, but the
stop-gloss filter afterwards drops `BE` — a substituted token can be
subsequently dropped. -/
theorem c4_amended_fallback_gloss :
    sent_to_gloss_basic "Hello there." = ["HELLO", "THERE"] ∧
    sent_to_gloss_basic "How are you today?" = ["HOW", "YOU", "TODAY"] ∧
    customMap "are" = some "BE" ∧ DROP_BASIC.contains "BE" = true := by decide

/-- C5: the queue streamer's adjacent de-duplication threads its last-label
state across record boundaries: two consecutive records whose clips carry
the label `HELLO` yield the asset once, and in general a clip item whose
non-empty label equals the current last-emitted label is suppressed,
leaving output and state exactly as if the item were absent. -/
theorem c5_cross_record_dedupe :
    (process_line decodeHello "r" none = (["hello.mp4"], some "HELLO") ∧
      process_line decodeHello "r" (some "HELLO") = ([], some "HELLO")) ∧
    (∀ (last : Option String) (it : SItem) (rest : List SItem) (a s : String),
      it.type = some "clip" → it.asset = some a → a ≠ "" →
        it.label = some s → s ≠ "" → last = some s →
          processQueue last (it :: rest) = processQueue last rest) := by
  refine ⟨⟨by decide, by decide⟩, ?_⟩
  intro last it rest a s h1 h2 h3 h4 h5 h6
  show (if it.type ≠ some "clip" then processQueue last rest
      else if (it.asset).getD "" = "" then processQueue last rest
      else if pyTruthy it.label = true ∧ it.label = last then processQueue last rest
      else ((it.asset).getD "" :: (processQueue it.label rest).1,
            (processQueue it.label rest).2)) = processQueue last rest
  rw [if_neg (fun hne => hne h1), h2, Option.getD_some, if_neg h3,
    if_pos ⟨by rw [h4]; exact decide_eq_true h5, by rw [h4, h6]⟩]

/-- C5 witness: a `HELLO` clip arriving while the last emitted label is
already `HELLO` is suppressed. -/
theorem c5_cross_record_dedupe_witness :
    processQueue (some "HELLO") [⟨some "clip", some "HELLO", some "hello.mp4"⟩] =
      ([], some "HELLO") :=
  (c5_cross_record_dedupe.2 (some "HELLO")
      ⟨some "clip", some "HELLO", some "hello.mp4"⟩ [] "hello.mp4" "HELLO"
      rfl rfl (by decide) rfl (by decide) rfl).trans rfl

/-- C6 counterexample: the back-to-back sentence de-duplication of
`CleanerState.commit` is not case-insensitive.  With `"Hello world."` as
the last emitted sentence, the candidate `"hello World."` is identical to
it up to letter case after whitespace normalization, yet `commit` emits it
(as `"Hello World."`) instead of suppressing it. -/
theorem c6_counterexample :
    strLower (clean_text "hello World.") = strLower "Hello world." ∧
    (commit ⟨false, none, some "Hello world."⟩ "hello World.").2 =
      ["Hello World."] := by decide

/-- C6 amended: the de-duplication compares the finalized text for exact
(case-sensitive) equality, so feeding the very same text twice in direct
succession yields exactly one emission: after any emitting commit, a
second commit of the same text is suppressed and leaves the state
unchanged. -/
theorem c6_amended_exact_dedupe (st : CleanerState) (text : String)
    (st1 : CleanerState) (out1 : List String)
    (h : commit st text = (st1, out1)) (hne : out1 ≠ []) :
    commit st1 text = (st1, []) := by
  unfold commit at h ⊢
  by_cases h1 : (clean_text text).data.length < MIN_CHARS
  · rw [if_pos h1] at h
    rw [Prod.mk.injEq] at h
    exact absurd h.2.symm hne
  · rw [if_neg h1] at h
    rw [if_neg h1]
    by_cases h2 : finalize_text (clean_text text) = ""
    · rw [if_pos h2] at h
      rw [Prod.mk.injEq] at h
      exact absurd h.2.symm hne
    · rw [if_neg h2] at h
      rw [if_neg h2]
      by_cases h3 : st.last_emitted = some (finalize_text (clean_text text))
      · rw [if_pos h3] at h
        rw [Prod.mk.injEq] at h
        exact absurd h.2.symm hne
      · rw [if_neg h3] at h
        rw [Prod.mk.injEq] at h
        obtain ⟨hst, hout⟩ := h
        subst hst
        rw [if_pos rfl]

/-- C6 witness: committing `"hello world."` twice in succession emits once
and then suppresses. -/
theorem c6_amended_exact_dedupe_witness :
    commit ⟨false, none, some "Hello world."⟩ "hello world." =
      (⟨false, none, some "Hello world."⟩, []) :=
  c6_amended_exact_dedupe ⟨false, none, none⟩ "hello world."
    ⟨false, none, some "Hello world."⟩ ["Hello world."] (by decide) (by decide)

/-- C7 counterexample: the lexical-matcher path does not compress adjacent
duplicates — two adjacent word matches with the same label make `to_queue`
emit the gloss `["HELLO", "HELLO"]`, which contains two identical adjacent
tokens. -/
theorem c7_counterexample :
    (to_queue 1 100 [SMatch.clip exHelloEntry 0 1, SMatch.clip exHelloEntry 1 2]
        none).2 = ["HELLO", "HELLO"] ∧
    ¬ List.Chain' (fun a b => a ≠ b) (["HELLO", "HELLO"] : List String) := by
  refine ⟨by decide, ?_⟩
  simp [List.chain'_cons]

/-- C7 amended: the two glossifier paths (tagger-based and fallback) end in
the adjacent-duplicate compression loop, so their gloss sequences never
contain two identical adjacent tokens; the lexical-matcher path does not
share this invariant. -/
theorem c7_amended_gloss_adjacency :
    (∀ text : String,
        List.Chain' (fun a b => a ≠ b) (sent_to_gloss_basic text)) ∧
    (∀ doc : List SpacyTok,
        List.Chain' (fun a b => a ≠ b) (sent_to_gloss_spacy doc)) :=
  ⟨fun _ => chain'_dedupAdjacent _, fun _ => chain'_dedupAdjacent _⟩

/-- C8: a line the decoder rejects makes `process_line` return the empty
asset list with the last-emitted-label state untouched, so the stream
continues with the next line. -/
theorem c8_malformed_skip (decode : String → Option SRecord) (line : String)
    (last : Option String) (h : decode (pyStrip line) = none) :
    process_line decode line last = ([], last) := by
  unfold process_line
  by_cases he : pyStrip line = ""
  · rw [if_pos he]
  · rw [if_neg he, h]

/-- C8 witness: a non-JSON line under a decoder rejecting everything. -/
theorem c8_malformed_skip_witness :
    process_line (fun _ => none) "not json" (some "HELLO") = ([], some "HELLO") :=
  c8_malformed_skip (fun _ => none) "not json" (some "HELLO") rfl

/-- C9: `basic_lemma` first strips a trailing possessive `'s` and then
removes the longest suffix among `ing, ed, es, s` that matches and leaves
a stem of at least two characters (token strictly longer than the suffix
length plus one), returning the token unchanged when no suffix qualifies —
its source-order first-match loop agrees with the spec-side
longest-qualifying-suffix description on every token. -/
theorem c9_basic_lemma_longest_suffix (tok : String) :
    basic_lemma tok = basicLemmaSpec tok := by
  unfold basic_lemma basicLemmaSpec suffixStrip
  cases h1 : qualifies (stripPoss tok) "ing" <;>
    cases h2 : qualifies (stripPoss tok) "ed" <;>
      cases h3 : qualifies (stripPoss tok) "es" <;>
        cases h4 : qualifies (stripPoss tok) "s" <;>
          simp only [h1, h2, h3, h4, List.filter, Bool.false_eq_true,
            if_true, if_false, ite_true, ite_false] <;> rfl

/-- C10: queue building is total in the rate — the clamped divisor
`max(rate, 0.01)` used by `map_gloss_to_queue` is positive (hence its
numerator non-zero, so the division is never by zero) for every rational
rate including zero and negative ones, and `scale_ms` returns the duration
unscaled whenever the speed factor is non-positive. -/
theorem c10_rate_totality :
    (∀ rate : ℚ, 0 < maxRate rate) ∧
    (∀ (speed : ℚ) (ms : ℤ), speed ≤ 0 → scale_ms speed ms = ms) ∧
    (∀ rate : ℚ, (maxRate rate).num ≠ 0) :=
  ⟨maxRate_pos,
   fun _ ms h => by simp [scale_ms, h],
   fun rate => Rat.num_ne_zero.mpr (ne_of_gt (maxRate_pos rate))⟩

/-- C10 witness: rate `−5` still gives a positive divisor, and a zero speed
factor leaves a 42 ms duration unscaled. -/
theorem c10_rate_totality_witness :
    0 < maxRate (-5) ∧ scale_ms 0 42 = 42 :=
  ⟨c10_rate_totality.1 (-5), c10_rate_totality.2.1 0 42 (by norm_num)⟩

end SpeechToSign
